/-
Verification of the systemBoam-service frontend view-model and search logic.

The definitions below are a shallow embedding of:
  * frontend-main/components/search-section.tsx  (SearchSection, handleSearch,
    handleResultClick, the mode buttons and the Input element's handlers)
  * frontend-main/app/cve/[id]/page.tsx          (CVEDetailPage's load effect)
  * frontend-main/lib/api.ts                     (apiGet: non-2xx throws)

Numbers carried by the JSON responses are modelled as rationals; optional or
nullable JSON fields are modelled as Option (none covers both `undefined` and
`null`, which `??` and `?.` in the source treat identically).
-/
import Mathlib

namespace SystemBoam

/-! ## Search section (search-section.tsx) -/

/-- One entry of the mock CVE database `allCVEs` in search-section.tsx. -/
structure CVEEntry where
  id : String
  title : String
  year : Nat
deriving DecidableEq, Repr

/-- The hard-coded mock CVE list from search-section.tsx, lines 13-26. -/
def allCVEs : List CVEEntry :=
  [ ⟨"CVE-2025-0001", "Apache Log4j Zero-Day", 2025⟩,
    ⟨"CVE-2025-0002", "Apache Struts Vulnerability", 2025⟩,
    ⟨"CVE-2025-0003", "Windows Kernel Vulnerability", 2025⟩,
    ⟨"CVE-2025-0004", "SQL Injection in CMS", 2025⟩,
    ⟨"CVE-2025-0005", "CMS Authentication Bypass", 2025⟩,
    ⟨"CVE-2025-0006", "CMS RCE Vulnerability", 2025⟩,
    ⟨"CVE-2025-0007", "OpenSSL Remote Code Execution", 2025⟩,
    ⟨"CVE-2025-0008", "VPN Authentication Bypass", 2025⟩,
    ⟨"CVE-2025-0009", "VPN Encryption Flaw", 2025⟩,
    ⟨"CVE-2024-1001", "Database Vulnerability", 2024⟩,
    ⟨"CVE-2024-1002", "Container Escape", 2024⟩,
    ⟨"CVE-2023-5001", "Browser XSS", 2023⟩ ]

/-- JavaScript `String.prototype.trim`: strip leading and trailing whitespace.
Defined by structural recursion on the character list so that proofs can
evaluate it on concrete strings. -/
def jsTrim (s : String) : String :=
  ⟨((s.data.dropWhile Char.isWhitespace).reverse.dropWhile Char.isWhitespace).reverse⟩

/-- ASCII lowercasing of one character, as `toLowerCase` acts on the ASCII
identifiers and titles this component handles. -/
def jsCharToLower (c : Char) : Char :=
  if 'A' ≤ c ∧ c ≤ 'Z' then Char.ofNat (c.toNat + 32) else c

/-- JavaScript `String.prototype.toLowerCase` on ASCII strings. -/
def jsToLower (s : String) : String :=
  ⟨s.data.map jsCharToLower⟩

/-- `listStartsWith hay needle` is true when `needle` is an initial segment of
`hay`; helper for the JavaScript `String.prototype.includes` semantics. -/
def listStartsWith : List Char → List Char → Bool
  | _, [] => true
  | [], _ :: _ => false
  | a :: as, b :: bs => a == b && listStartsWith as bs

/-- `listHasSub needle hay` is true when `needle` occurs contiguously in `hay`. -/
def listHasSub (needle : List Char) : List Char → Bool
  | [] => listStartsWith [] needle
  | c :: t => listStartsWith (c :: t) needle || listHasSub needle t

/-- JavaScript `hay.includes(needle)`: substring containment. -/
def strIncludes (hay needle : String) : Bool :=
  listHasSub needle.toList hay.toList

/-- The search mode toggle: `type SearchMode = "cve" | "keyword"`. -/
inductive SearchMode
  | cve
  | keyword
deriving DecidableEq, Repr

/-- The component-local state of SearchSection (its four useState hooks). -/
structure SearchState where
  mode : SearchMode
  searchQuery : String
  searchResults : List CVEEntry
  showResults : Bool
deriving DecidableEq, Repr

/-- Externally visible side effects of the search component: router pushes and
network requests. -/
inductive FrontAction
  | navigate (path : String)
  | request (url : String)
deriving DecidableEq, Repr

/-- `handleSearch` from search-section.tsx, lines 35-57: store the query; a
query with empty trim clears results and hides the panel; otherwise filter
the local `allCVEs` list (by id in `cve` mode, by title in `keyword` mode,
both lowercased) and show the panel.  The function performs no fetch, so the
emitted action list is empty on every path. -/
def handleSearch (query : String) (s : SearchState) : SearchState × List FrontAction :=
  let s1 := { s with searchQuery := query }
  if jsTrim query = "" then
    ({ s1 with searchResults := [], showResults := false }, [])
  else
    let lowerQuery := jsToLower query
    let results :=
      if s.mode = SearchMode.cve then
        allCVEs.filter (fun c => strIncludes (jsToLower c.id) lowerQuery)
      else
        allCVEs.filter (fun c => strIncludes (jsToLower c.title) lowerQuery)
    ({ s1 with searchResults := results, showResults := true }, [])

/-- `handleResultClick` from search-section.tsx, lines 59-63: set the query to
the clicked id, hide the panel, and push the detail route. -/
def handleResultClick (cveId : String) (s : SearchState) : SearchState × List FrontAction :=
  ({ s with searchQuery := cveId, showResults := false },
   [FrontAction.navigate ("/cve/" ++ cveId)])

/-- Clicking a mode button (lines 69-74) only calls `setMode`. -/
def setModeStep (m : SearchMode) (s : SearchState) : SearchState :=
  { s with mode := m }

/-- The events the search `Input` element can receive.  The JSX (lines 82-89)
declares only `onChange` and `onFocus`; there is no `onKeyDown` handler and
the input is not inside a form, so key presses reach no handler. -/
inductive InputEvent
  | change (text : String)
  | focus
  | keydown (key : String)

/-- Dispatch of an input event by the rendered component: `onChange` runs
`handleSearch`, `onFocus` runs `searchQuery && setShowResults(true)`, and a
key press (Enter included) has no handler and therefore no effect. -/
def searchSectionStep : InputEvent → SearchState → SearchState × List FrontAction
  | .change t, s => handleSearch t s
  | .focus, s => (if s.searchQuery ≠ "" then { s with showResults := true } else s, [])
  | .keydown _, s => (s, [])

/-- The initial SearchSection state from its useState initializers. -/
def initSearchState : SearchState :=
  { mode := SearchMode.cve, searchQuery := "", searchResults := [], showResults := false }

/-! ## CVE detail page (app/cve/[id]/page.tsx) -/

/-- `BasicResp` from page.tsx: `{ cve: string, summary?: string | null }`. -/
structure BasicResp where
  cve : String
  summary : Option String
deriving DecidableEq, Repr

/-- The `cvss: { base?: number }` member of the scores response. -/
structure CvssObj where
  base : Option ℚ
deriving DecidableEq, Repr

/-- `ScoresResp` from page.tsx.  The code reads `scores.cvss?.base`, guarding
against an absent `cvss` object, hence the outer Option on `cvss`. -/
structure ScoresResp where
  cve : String
  overall_score : ℚ
  cvss : Option CvssObj
  epss : Option ℚ
  kve : Option ℚ
  activity : Option ℚ
deriving DecidableEq, Repr

/-- `CveViewModel` from page.tsx, lines 34-44. -/
structure CveViewModel where
  id : String
  title : String
  status : String
  publishedDate : Option String
  severity : Option String
  cvssScore : ℚ
  epssScore : ℚ
  kveScore : ℚ
  activityScore : ℚ
deriving DecidableEq, Repr

/-- The placeholder title the page shows when the summary is missing. -/
def placeholderTitle : String := "(요약 없음)"

/-- The error message set when the basic/scores join fails (page.tsx line 116). -/
def loadErrorMessage : String := "CVE 상세 정보를 불러오는 중 오류가 발생했습니다."

/-- The object literal passed to `setCveData` in page.tsx, lines 82-94:
`scores.cvss?.base ?? 0`, `scores.epss ?? 0`, `scores.kve ?? 0`,
`scores.activity ?? 0`, and the title falls back to the placeholder unless
the summary is truthy with positive trimmed length. -/
def mkCveViewModel (basic : BasicResp) (scores : ScoresResp) : CveViewModel :=
  { id := basic.cve
    title :=
      match basic.summary with
      | some t => if t ≠ "" ∧ 0 < (jsTrim t).length then t else placeholderTitle
      | none => placeholderTitle
    status := "Active"
    publishedDate := none
    severity := none
    cvssScore := (scores.cvss.bind CvssObj.base).getD 0
    epssScore := scores.epss.getD 0
    kveScore := scores.kve.getD 0
    activityScore := scores.activity.getD 0 }

/-- Parsed body of the AI-summary response: `{ ai_summary?: string }`. -/
structure AiResp where
  ai_summary : Option String
deriving DecidableEq, Repr

/-- Outcome of the AI-summary POST: 2xx with a parsed body, a non-2xx status
(`!res.ok`), or a thrown network error caught by the inner `catch`. -/
inductive AiOutcome
  | ok (data : AiResp)
  | httpError
  | networkError
deriving DecidableEq, Repr

/-- `aiFails o` is true on the two failure outcomes of the AI-summary call. -/
def aiFails : AiOutcome → Bool
  | .ok _ => false
  | .httpError => true
  | .networkError => true

/-- The four useState hooks of CVEDetailPage that the load effect mutates. -/
structure PageState where
  cveData : Option CveViewModel
  aiSummary : String
  loading : Bool
  error : Option String
deriving DecidableEq, Repr

/-- The initial PageState from the useState initializers (lines 53-56). -/
def initPageState : PageState :=
  { cveData := none, aiSummary := "", loading := true, error := none }

/-- When, relative to the two suspension points of the load effect, the
cleanup function flipped the `active` flag to false.  The flag starts true
and is cleared at most once, so three cases cover every schedule:
cleared before the basic/scores join resolves, cleared between the join and
the AI-summary completion, or never cleared while the effect runs. -/
inductive Liveness
  | deadBeforeJoin
  | deadAfterJoin
  | alive
deriving DecidableEq, Repr

/-- The `active` flag's value when the basic/scores join completion runs. -/
def aliveAtJoin : Liveness → Bool
  | .deadBeforeJoin => false
  | .deadAfterJoin => true
  | .alive => true

/-- The `active` flag's value when the AI-summary completion (and the
`finally` block of the success path) runs. -/
def aliveAtAi : Liveness → Bool
  | .alive => true
  | .deadBeforeJoin => false
  | .deadAfterJoin => false

/-- The AI-summary completion of page.tsx, lines 103-113: on 2xx set
`data.ai_summary ?? ""`; on non-2xx or a thrown error set `""`; every branch
first checks the `active` flag. -/
def applyAi (ai : AiOutcome) (activeNow : Bool) (s : PageState) : PageState :=
  match ai with
  | .ok data => if activeNow then { s with aiSummary := data.ai_summary.getD "" } else s
  | .httpError => if activeNow then { s with aiSummary := "" } else s
  | .networkError => if activeNow then { s with aiSummary := "" } else s

/-- The whole `load` function of page.tsx (lines 64-121) as a pure function of
the two fetch outcomes, the AI outcome, and the teardown schedule.
`apiGet` rejects on network failure or non-2xx, so each of the two required
fetches is an `Except`; `Promise.all` rejects as soon as either does.
Control flow mirrored: synchronous `setLoading(true); setError(null)`; await
the join; on rejection the catch sets the error message if active, then the
`finally` (same tick, same flag value) clears loading; on success, if the
flag is off return (the `finally` then sees the flag off and does nothing),
otherwise set the view model, await the AI call, apply its guarded
completion, and run the guarded `finally`. -/
def loadRun (basic : Except Unit BasicResp) (scores : Except Unit ScoresResp)
    (ai : AiOutcome) (l : Liveness) (s0 : PageState) : PageState :=
  let s1 := { s0 with loading := true, error := none }
  match basic, scores with
  | .ok b, .ok sc =>
    if aliveAtJoin l then
      let s2 := { s1 with cveData := some (mkCveViewModel b sc) }
      let s3 := applyAi ai (aliveAtAi l) s2
      if aliveAtAi l then { s3 with loading := false } else s3
    else s1
  | _, _ =>
    if aliveAtJoin l then { s1 with error := some loadErrorMessage, loading := false }
    else s1

/-- `exOk e` is true when the fetch outcome `e` is a fulfilled promise. -/
def exOk {α : Type} : Except Unit α → Bool
  | .ok _ => true
  | .error _ => false

/-- Ordered trace of request issuances and settlements in the load effect.
The two `apiGet` calls are issued together when `Promise.all` is built; the
join then settles; only in the success path, and only if the component is
still live, is the AI-summary request issued (page.tsx line 98) and awaited. -/
inductive LoadEvent
  | reqBasic
  | reqScores
  | joinOk
  | joinErr
  | reqAI
  | aiSettled
deriving DecidableEq, Repr

/-- The event trace of one run of the load effect. -/
def loadEvents (basic : Except Unit BasicResp) (scores : Except Unit ScoresResp)
    (l : Liveness) : List LoadEvent :=
  [LoadEvent.reqBasic, LoadEvent.reqScores] ++
    match basic, scores with
    | .ok _, .ok _ =>
        LoadEvent.joinOk :: (if aliveAtJoin l then [LoadEvent.reqAI, LoadEvent.aiSettled] else [])
    | _, _ => [LoadEvent.joinErr]

/-! ## Concrete sample values used by witnesses and counterexamples -/

/-- A sample basic-info response. -/
def exampleBasic : BasicResp :=
  { cve := "CVE-2025-0001", summary := some "Apache Log4j Zero-Day" }

/-- A basic-info response whose summary is whitespace only. -/
def whitespaceBasic : BasicResp :=
  { cve := "CVE-2025-0002", summary := some "   " }

/-- The scores response of the spec's worked example:
`{epss: 0.85, kve: null, activity: 8.5, cvss: {base: 9.8}}`. -/
def exampleScores : ScoresResp :=
  { cve := "CVE-2025-0001", overall_score := 0, cvss := some { base := some (9.8 : ℚ) },
    epss := some (0.85 : ℚ), kve := none, activity := some (8.5 : ℚ) }

/-- The first entry of the mock CVE list. -/
def logEntry : CVEEntry := ⟨"CVE-2025-0001", "Apache Log4j Zero-Day", 2025⟩

/-- A search state holding a raw lowercase CVE id, as in the spec's
Enter-key example. -/
def enterState : SearchState :=
  { mode := SearchMode.cve, searchQuery := "cve-2025-0001",
    searchResults := [], showResults := false }

/-! ## Claims -/

/-- Claim C1: when both the basic-info fetch and the scores fetch succeed, the
assembled view model is stored in state, and each of its numeric fields
(cvssScore, epssScore, kveScore, activityScore) equals the corresponding
source value (scores.cvss.base, scores.epss, scores.kve, scores.activity)
when that field is present and non-null, and equals 0 when it is null or
absent. -/
theorem c1_viewmodel_numeric_defaults (bb : BasicResp) (scc : ScoresResp)
    (ai : AiOutcome) (s0 : PageState) :
    (loadRun (.ok bb) (.ok scc) ai Liveness.alive s0).cveData = some (mkCveViewModel bb scc)
    ∧ (∀ q : ℚ, scc.cvss.bind CvssObj.base = some q → (mkCveViewModel bb scc).cvssScore = q)
    ∧ (scc.cvss.bind CvssObj.base = none → (mkCveViewModel bb scc).cvssScore = 0)
    ∧ (∀ q : ℚ, scc.epss = some q → (mkCveViewModel bb scc).epssScore = q)
    ∧ (scc.epss = none → (mkCveViewModel bb scc).epssScore = 0)
    ∧ (∀ q : ℚ, scc.kve = some q → (mkCveViewModel bb scc).kveScore = q)
    ∧ (scc.kve = none → (mkCveViewModel bb scc).kveScore = 0)
    ∧ (∀ q : ℚ, scc.activity = some q → (mkCveViewModel bb scc).activityScore = q)
    ∧ (scc.activity = none → (mkCveViewModel bb scc).activityScore = 0) := by
  refine ⟨?_, ?_, ?_, ?_, ?_, ?_, ?_, ?_, ?_⟩
  · cases ai <;> simp [loadRun, applyAi, aliveAtJoin, aliveAtAi]
  all_goals intro h
  case _ => intro hq; simp [mkCveViewModel, hq]
  case _ => simp [mkCveViewModel, h]
  case _ => intro hq; simp [mkCveViewModel, hq]
  case _ => simp [mkCveViewModel, h]
  case _ => intro hq; simp [mkCveViewModel, hq]
  case _ => simp [mkCveViewModel, h]
  case _ => intro hq; simp [mkCveViewModel, hq]
  case _ => simp [mkCveViewModel, h]

/-- Witness for C1 at the spec's worked example: scores
`{epss: 0.85, kve: null, activity: 8.5, cvss: {base: 9.8}}` yield
`{cvssScore: 9.8, epssScore: 0.85, kveScore: 0, activityScore: 8.5}`. -/
theorem c1_witness :
    (mkCveViewModel exampleBasic exampleScores).cvssScore = (9.8 : ℚ)
    ∧ (mkCveViewModel exampleBasic exampleScores).epssScore = (0.85 : ℚ)
    ∧ (mkCveViewModel exampleBasic exampleScores).kveScore = 0
    ∧ (mkCveViewModel exampleBasic exampleScores).activityScore = (8.5 : ℚ) := by
  obtain ⟨-, hc, -, he, -, -, hk0, ha, -⟩ :=
    c1_viewmodel_numeric_defaults exampleBasic exampleScores AiOutcome.httpError initPageState
  exact ⟨hc (9.8 : ℚ) rfl, he (0.85 : ℚ) rfl, hk0 rfl, ha (8.5 : ℚ) rfl⟩

/-- Claim C2: if either required fetch fails, the view-model state is left
unchanged (so it remains null), the single user-facing error message is
set, loading ends, and the AI-summary slot is untouched: no partial view
model is built from only one of the two responses. -/
theorem c2_join_failure_no_viewmodel (b : Except Unit BasicResp)
    (sc : Except Unit ScoresResp) (ai : AiOutcome) (s0 : PageState)
    (hfail : exOk b = false ∨ exOk sc = false) :
    (loadRun b sc ai Liveness.alive s0).cveData = s0.cveData
    ∧ (loadRun b sc ai Liveness.alive s0).error = some loadErrorMessage
    ∧ (loadRun b sc ai Liveness.alive s0).loading = false
    ∧ (loadRun b sc ai Liveness.alive s0).aiSummary = s0.aiSummary := by
  cases b with
  | error e => cases sc <;> simp [loadRun, aliveAtJoin]
  | ok bb =>
    cases sc with
    | error e => simp [loadRun, aliveAtJoin]
    | ok scc => simp [exOk] at hfail

/-- Witness for C2: a rejected basic-info fetch with a fulfilled scores fetch
produces no view model and sets the error message. -/
theorem c2_witness :
    (exOk (Except.error () : Except Unit BasicResp) = false
      ∨ exOk (Except.ok exampleScores) = false)
    ∧ ((loadRun (Except.error ()) (Except.ok exampleScores) AiOutcome.httpError
          Liveness.alive initPageState).cveData = initPageState.cveData
      ∧ (loadRun (Except.error ()) (Except.ok exampleScores) AiOutcome.httpError
          Liveness.alive initPageState).error = some loadErrorMessage
      ∧ (loadRun (Except.error ()) (Except.ok exampleScores) AiOutcome.httpError
          Liveness.alive initPageState).loading = false
      ∧ (loadRun (Except.error ()) (Except.ok exampleScores) AiOutcome.httpError
          Liveness.alive initPageState).aiSummary = initPageState.aiSummary) :=
  ⟨Or.inl rfl, c2_join_failure_no_viewmodel _ _ _ _ (Or.inl rfl)⟩

/-- Claim C5: when basic info and scores succeed but the AI-summary call
fails (non-2xx status or thrown network error), the AI-summary slot is the
empty string while the view model is still produced, the error state stays
clear, and loading completes. -/
theorem c5_ai_failure_isolated (bb : BasicResp) (scc : ScoresResp)
    (ai : AiOutcome) (s0 : PageState) (hfail : aiFails ai = true) :
    (loadRun (.ok bb) (.ok scc) ai Liveness.alive s0).aiSummary = ""
    ∧ (loadRun (.ok bb) (.ok scc) ai Liveness.alive s0).cveData = some (mkCveViewModel bb scc)
    ∧ (loadRun (.ok bb) (.ok scc) ai Liveness.alive s0).error = none
    ∧ (loadRun (.ok bb) (.ok scc) ai Liveness.alive s0).loading = false := by
  cases ai with
  | ok d => simp [aiFails] at hfail
  | httpError => simp [loadRun, applyAi, aliveAtJoin, aliveAtAi]
  | networkError => simp [loadRun, applyAi, aliveAtJoin, aliveAtAi]

/-- Witness for C5: a thrown AI-summary fetch leaves an empty summary and a
successful view model. -/
theorem c5_witness :
    (aiFails AiOutcome.networkError = true)
    ∧ ((loadRun (Except.ok exampleBasic) (Except.ok exampleScores)
          AiOutcome.networkError Liveness.alive initPageState).aiSummary = ""
      ∧ (loadRun (Except.ok exampleBasic) (Except.ok exampleScores)
          AiOutcome.networkError Liveness.alive initPageState).cveData
            = some (mkCveViewModel exampleBasic exampleScores)
      ∧ (loadRun (Except.ok exampleBasic) (Except.ok exampleScores)
          AiOutcome.networkError Liveness.alive initPageState).error = none
      ∧ (loadRun (Except.ok exampleBasic) (Except.ok exampleScores)
          AiOutcome.networkError Liveness.alive initPageState).loading = false) :=
  ⟨rfl, c5_ai_failure_isolated exampleBasic exampleScores AiOutcome.networkError initPageState rfl⟩

/-- Claim C4 counterexample: the claim says the AI-summary request is issued
independently of the basic/scores join, so it would be issued even when the
join fails.  In the code the AI fetch sits after `await Promise.all` inside
the same `try`, so when the basic-info fetch rejects the AI-summary request
is never issued: the run's event trace contains no AI request event. -/
theorem c4_counterexample :
    loadEvents (Except.error ()) (Except.ok exampleScores) Liveness.alive
      = [LoadEvent.reqBasic, LoadEvent.reqScores, LoadEvent.joinErr] := by
  decide

/-- Claim C4 as amended: the AI-summary request is issued sequentially after
the basic/scores join, not concurrently with it: it appears in the event
trace exactly when both required fetches succeed and the component is still
live at the join, and the first three events are always the two required
issuances followed by the join settling, with the AI request never among
them. -/
theorem c4_ai_request_after_join (b : Except Unit BasicResp)
    (sc : Except Unit ScoresResp) (l : Liveness) :
    (LoadEvent.reqAI ∈ loadEvents b sc l
      ↔ (exOk b = true ∧ exOk sc = true ∧ aliveAtJoin l = true))
    ∧ (loadEvents b sc l).take 3 =
        [LoadEvent.reqBasic, LoadEvent.reqScores,
         if exOk b && exOk sc then LoadEvent.joinOk else LoadEvent.joinErr]
    ∧ (loadEvents b sc l).take 3 ≠ [LoadEvent.reqAI]
    ∧ LoadEvent.reqAI ∉ (loadEvents b sc l).take 3 := by
  cases b <;> cases sc <;> cases l <;>
    simp [loadEvents, exOk, aliveAtJoin]

/-- Witness for C4: with both fetches fulfilled and the component live, the
AI request is present in the trace (after the join events). -/
theorem c4_witness :
    LoadEvent.reqAI ∈ loadEvents (Except.ok exampleBasic) (Except.ok exampleScores) Liveness.alive :=
  (c4_ai_request_after_join (Except.ok exampleBasic) (Except.ok exampleScores)
    Liveness.alive).1.mpr ⟨rfl, rfl, rfl⟩

/-- Claim C6: a teardown (identifier change or unmount) while a request is in
flight prevents that request's completion from touching the display state.
If the flag is cleared before the basic/scores join resolves, the final
state is exactly what the synchronous prologue set (loading true, error
cleared, view model and AI summary untouched); if it is cleared between the
join and the AI completion, the AI summary, loading flag, and error state
are all left as the join-time completion left them — the stale AI completion
and the `finally` never fire. -/
theorem c6_stale_completions_discarded (b : Except Unit BasicResp)
    (sc : Except Unit ScoresResp) (ai : AiOutcome) (bb : BasicResp)
    (scc : ScoresResp) (s0 : PageState) :
    loadRun b sc ai Liveness.deadBeforeJoin s0 = { s0 with loading := true, error := none }
    ∧ (loadRun (.ok bb) (.ok scc) ai Liveness.deadAfterJoin s0).aiSummary = s0.aiSummary
    ∧ (loadRun (.ok bb) (.ok scc) ai Liveness.deadAfterJoin s0).loading = true
    ∧ (loadRun (.ok bb) (.ok scc) ai Liveness.deadAfterJoin s0).error = none := by
  refine ⟨?_, ?_, ?_, ?_⟩ <;> cases ai <;> cases b <;> cases sc <;>
    simp [loadRun, applyAi, aliveAtJoin, aliveAtAi]

/-- Claim C3 counterexample: the claim says each keystroke with non-whitespace
text issues a GET to the backend search endpoint.  In the code `handleSearch`
filters the hard-coded local `allCVEs` array and performs no fetch: typing
"2025" (non-whitespace) emits an empty action list, so no network request
carrying the text is ever issued. -/
theorem c3_counterexample :
    (jsTrim "2025").length = 4
    ∧ (searchSectionStep (InputEvent.change "2025") initSearchState).2 = [] := by
  decide

/-- Claim C3 as amended: a keystroke never issues a network request; text with
empty trim immediately clears the results and hides the panel, and
non-whitespace text filters the local in-memory CVE list by the literal
lowercased text under the current mode and shows the panel. -/
theorem c3_local_search_no_network (q : String) (s : SearchState) :
    (handleSearch q s).2 = []
    ∧ (jsTrim q = "" →
        (handleSearch q s).1.searchResults = [] ∧ (handleSearch q s).1.showResults = false)
    ∧ (jsTrim q ≠ "" →
        (handleSearch q s).1.showResults = true
        ∧ (handleSearch q s).1.searchResults =
            (if s.mode = SearchMode.cve then
              allCVEs.filter (fun c => strIncludes (jsToLower c.id) (jsToLower q))
            else
              allCVEs.filter (fun c => strIncludes (jsToLower c.title) (jsToLower q)))) := by
  by_cases h : jsTrim q = "" <;> simp [handleSearch, h]

/-- Witness for C3 at the empty query: results are cleared, the panel is
hidden, and no request is issued. -/
theorem c3_witness :
    (jsTrim "" = "")
    ∧ ((handleSearch "" initSearchState).1.searchResults = []
      ∧ (handleSearch "" initSearchState).1.showResults = false) :=
  ⟨rfl, (c3_local_search_no_network "" initSearchState).2.1 rfl⟩

/-- Claim C7 counterexample: the claim says pressing Enter in `cve` mode with
raw text "cve-2025-0001" navigates to the detail view for that literal
string.  The search input declares only `onChange` and `onFocus` handlers
and sits in no form, so an Enter key press reaches no handler: the state is
unchanged and no navigation (or any other action) is emitted. -/
theorem c7_counterexample :
    searchSectionStep (InputEvent.keydown "Enter") enterState = (enterState, []) := by
  decide

/-- Claim C7 as amended: a key press (Enter included) in the search box, in
either mode, changes nothing and navigates nowhere; navigation to a detail
view happens only by clicking a suggestion entry, which routes to exactly
"/cve/" followed by the entry's id and hides the panel. -/
theorem c7_enter_no_navigation (k : String) (s : SearchState) (cveId : String) :
    searchSectionStep (InputEvent.keydown k) s = (s, [])
    ∧ (handleResultClick cveId s).2 = [FrontAction.navigate ("/cve/" ++ cveId)]
    ∧ (handleResultClick cveId s).1.showResults = false
    ∧ (handleResultClick cveId s).1.searchQuery = cveId :=
  ⟨rfl, rfl, rfl, rfl⟩

/-- Claim C8 counterexample: the claim quantifies over every query string; at
the empty query in `cve` mode the code clears the result list, while every
identifier contains the empty string as a substring, so the claimed
characterization would select all 12 mock entries. -/
theorem c8_counterexample :
    (handleSearch "" initSearchState).1.searchResults = []
    ∧ allCVEs.filter (fun c => strIncludes (jsToLower c.id) (jsToLower "")) = allCVEs
    ∧ allCVEs.length = 12 := by
  decide

/-- Claim C8 as amended: for every query whose trimmed form is non-empty, the
result list in `cve` mode consists of exactly the mock entries whose
identifier contains the query as a case-insensitive substring, and in
`keyword` mode exactly those whose title contains it as a case-insensitive
substring; empty or whitespace-only queries clear the list instead. -/
theorem c8_filter_characterization (q : String) (s : SearchState)
    (h : jsTrim q ≠ "") :
    (∀ c, c ∈ (handleSearch q { s with mode := SearchMode.cve }).1.searchResults
        ↔ (c ∈ allCVEs ∧ strIncludes (jsToLower c.id) (jsToLower q) = true))
    ∧ (∀ c, c ∈ (handleSearch q { s with mode := SearchMode.keyword }).1.searchResults
        ↔ (c ∈ allCVEs ∧ strIncludes (jsToLower c.title) (jsToLower q) = true)) := by
  constructor <;> intro c <;>
    simp [handleSearch, h, List.mem_filter]

/-- Witness for C8 at query "2025" in `cve` mode on the Log4j entry. -/
theorem c8_witness :
    (jsTrim "2025" ≠ "")
    ∧ (logEntry ∈ (handleSearch "2025"
          { initSearchState with mode := SearchMode.cve }).1.searchResults
        ↔ (logEntry ∈ allCVEs
          ∧ strIncludes (jsToLower logEntry.id) (jsToLower "2025") = true)) :=
  ⟨by decide, (c8_filter_characterization "2025" initSearchState (by decide)).1 logEntry⟩

/-- Claim C9: clicking a mode button, by itself, leaves the displayed result
list, the panel visibility, and the query text unchanged; the new mode only
takes effect at the next keystroke, whose result list depends only on the
newly selected mode and not on the previously active one. -/
theorem c9_mode_switch_frame (m : SearchMode) (s sPrev : SearchState) (q : String) :
    (setModeStep m s).searchResults = s.searchResults
    ∧ (setModeStep m s).showResults = s.showResults
    ∧ (setModeStep m s).searchQuery = s.searchQuery
    ∧ (handleSearch q (setModeStep m s)).1.searchResults
        = (handleSearch q (setModeStep m sPrev)).1.searchResults := by
  refine ⟨rfl, rfl, rfl, ?_⟩
  by_cases h : jsTrim q = "" <;> simp [handleSearch, setModeStep, h]

/-- Claim C10: the view model's title equals basic.summary exactly when the
summary is present with positive trimmed length, and equals the literal
placeholder when the summary is absent, null, empty, or whitespace-only. -/
theorem c10_title_fallback (bb : BasicResp) (scc : ScoresResp) :
    (∀ t, bb.summary = some t → 0 < (jsTrim t).length →
        (mkCveViewModel bb scc).title = t)
    ∧ (bb.summary = none → (mkCveViewModel bb scc).title = placeholderTitle)
    ∧ (∀ t, bb.summary = some t → (jsTrim t).length = 0 →
        (mkCveViewModel bb scc).title = placeholderTitle) := by
  refine ⟨?_, ?_, ?_⟩
  · intro t ht hpos
    have hne : t ≠ "" := by
      intro he
      subst he
      exact absurd hpos (by decide)
    simp [mkCveViewModel, ht, hne, hpos]
  · intro h
    simp [mkCveViewModel, h]
  · intro t ht hzero
    simp [mkCveViewModel, ht, hzero]

/-- Witness for C10 at a whitespace-only summary: the title is the
placeholder. -/
theorem c10_witness :
    (whitespaceBasic.summary = some "   ")
    ∧ ((jsTrim "   ").length = 0)
    ∧ (mkCveViewModel whitespaceBasic exampleScores).title = placeholderTitle :=
  ⟨rfl, by decide,
    (c10_title_fallback whitespaceBasic exampleScores).2.2 "   " rfl (by decide)⟩

end SystemBoam
